import Mathlib

/-!
Verification of the cached collection engine of the Hetzner storage-box
Prometheus exporter (`crstian19/prometheus-storagebox-exporter`).

The Go sources are shallowly embedded below:
* `internal/hetzner/client.go` / `errors.go` — the upstream client and its
  typed error values (`APIError`, classification predicates,
  `ListStorageBoxes`);
* `internal/cache/cache.go` — the single-slot TTL cache (`MetricsCache`);
* `internal/collector/storagebox.go` — the Prometheus collector
  (`Describe`, `Collect`, `collectStorageBox`, `handleError`).

Machine integers (`int64`, `time.Duration`, `time.Time`) are modelled as
`Int`; clock reads (`time.Now()`) become explicit `now : Int` parameters,
and the measurement channel becomes an explicit `List Metric` result.
-/

/-! ## Data model (internal/hetzner/client.go) -/

/-- Data-center location of a storage box (`Location` in client.go). -/
structure Location where
  name : String
  description : String
  country : String
  city : String
deriving DecidableEq, Repr

/-- Storage box product type; `size` is the quota in bytes
(`StorageBoxType` in client.go). -/
structure StorageBoxType where
  name : String
  size : Int
deriving DecidableEq, Repr

/-- Usage statistics in bytes (`Stats` in client.go). -/
structure Stats where
  size : Int
  sizeData : Int
  sizeSnapshots : Int
deriving DecidableEq, Repr

/-- Access configuration flags (`AccessSettings` in client.go). -/
structure AccessSettings where
  ssh : Bool
  samba : Bool
  webdav : Bool
  zfs : Bool
  reachableExternally : Bool
deriving DecidableEq, Repr

/-- Automatic snapshot configuration (`SnapshotPlan` in client.go); the Go
field on `StorageBox` is a nullable pointer, modelled as `Option`. -/
structure SnapshotPlan where
  enabled : Bool
deriving DecidableEq, Repr

/-- Protection settings (`Protection` in client.go). -/
structure Protection where
  delete : Bool
deriving DecidableEq, Repr

/-- One remote storage resource (`StorageBox` in client.go). `created` is
the creation time as a Unix timestamp (`box.Created.Unix()` is what the
collector emits). Labels (a string map unused by the collector) are kept
as an association list. -/
structure StorageBox where
  id : Int
  name : String
  username : String
  status : String
  server : String
  system : String
  storageBoxType : StorageBoxType
  location : Location
  stats : Stats
  accessSettings : AccessSettings
  snapshotPlan : Option SnapshotPlan
  protection : Protection
  labels : List (String × String)
  created : Int
deriving DecidableEq, Repr

/-! ## Typed API errors (internal/hetzner/errors.go) -/

/-- Typed API error carrying the upstream HTTP status code
(`APIError` in errors.go). The wrapped `Err` field is irrelevant to
classification and omitted. -/
structure APIError where
  statusCode : Int
  message : String
  requestID : String
deriving DecidableEq, Repr

/-- A Go `error` value as seen by the collector: either a typed
`*hetzner.APIError` or any other error (transport, timeout, decode
failures, ...), which carries no structured status code. -/
inductive HErr where
  | api (e : APIError)
  | other (msg : String)
deriving DecidableEq, Repr

/-- Runtime type assertion to `*APIError` (`GetAPIError` in errors.go):
returns the structured error when the dynamic type matches. -/
def GetAPIError : HErr → Option APIError
  | .api e => some e
  | .other _ => none

/-- Dynamic type test (`IsAPIError` in errors.go). -/
def IsAPIError (err : HErr) : Bool :=
  (GetAPIError err).isSome

/-- Status 401 or 403 (`IsAuthError` in errors.go). -/
def IsAuthError (err : HErr) : Bool :=
  match GetAPIError err with
  | some apiErr => decide (apiErr.statusCode = 401 ∨ apiErr.statusCode = 403)
  | none => false

/-- Status in the 4xx range (`IsClientError` in errors.go). -/
def IsClientError (err : HErr) : Bool :=
  match GetAPIError err with
  | some apiErr => decide (400 ≤ apiErr.statusCode ∧ apiErr.statusCode < 500)
  | none => false

/-- Status in the 5xx range (`IsServerError` in errors.go). -/
def IsServerError (err : HErr) : Bool :=
  match GetAPIError err with
  | some apiErr => decide (500 ≤ apiErr.statusCode ∧ apiErr.statusCode < 600)
  | none => false

/-- Status 429 or 5xx (`IsRetryableError` in errors.go). -/
def IsRetryableError (err : HErr) : Bool :=
  match GetAPIError err with
  | some apiErr =>
      decide (apiErr.statusCode = 429 ∨ (500 ≤ apiErr.statusCode ∧ apiErr.statusCode < 600))
  | none => false

/-! ## Upstream client (internal/hetzner/client.go, `ListStorageBoxes`) -/

/-- An HTTP response as surfaced to `ListStorageBoxes` by `httpClient.Do`.
`requestID` models the value extracted from the `X-Request-Id` /
`X-Amzn-Requestid` headers; `bodyReadOk` models whether `io.ReadAll` on
the body succeeds; `errorMessage` models the message the non-200 path
derives from the body (JSON `error.message` if parseable, else the raw
body); `decodedBoxes` models the JSON decode of a 200 body (`none` =
decode failure). -/
structure HttpResponse where
  statusCode : Int
  requestID : String
  bodyReadOk : Bool
  errorMessage : String
  decodedBoxes : Option (List StorageBox)
deriving DecidableEq, Repr

/-- Outcome of one upstream HTTP round trip: either the transport layer
fails before any response is obtained (request construction failure,
connection error, timeout, DNS failure, context cancellation), or a
response with some status code is obtained. -/
inductive UpstreamOutcome where
  | transportFailure (msg : String)
  | response (r : HttpResponse)
deriving DecidableEq, Repr

/-- The upstream fetch (`ListStorageBoxes` in client.go). A transport
failure is wrapped with `fmt.Errorf` and carries no status code; a
non-200 response is converted to a typed `APIError` carrying the status
code and request id (via `NewAPIError` / `NewAPIErrorWithWrap`); a 200
response is JSON-decoded, a decode failure again being a plain
`fmt.Errorf` error. -/
def ListStorageBoxes : UpstreamOutcome → Except HErr (List StorageBox)
  | .transportFailure msg => .error (.other ("failed to execute request: " ++ msg))
  | .response r =>
      if r.statusCode ≠ 200 then
        if r.bodyReadOk then
          .error (.api ⟨r.statusCode, r.errorMessage, r.requestID⟩)
        else
          .error (.api ⟨r.statusCode, "API request failed: failed to read response body", r.requestID⟩)
      else
        match r.decodedBoxes with
        | some boxes => .ok boxes
        | none => .error (.other ("failed to decode response"))

/-! ## TTL cache (internal/cache/cache.go) -/

/-- The single-slot TTL cache (`MetricsCache` in cache.go). The Go struct
stores an `interface{}` slot; here it is generic in the stored type.
`time.Time` values are modelled as `Int` instants (the Go zero time is
`0`), durations as `Int`. -/
structure MetricsCache (α : Type) where
  data : Option α
  expiration : Int
  ttl : Int
  maxSize : Int
  currentSize : Int
  cleanupInterval : Int
  lastCleanup : Int
deriving DecidableEq, Repr

/-- Constructor (`NewMetricsCache` in cache.go); `now` models the
`time.Now()` read that initialises `lastCleanup`. -/
def NewMetricsCache (α : Type) (ttl maxSize cleanupInterval : Int) (now : Int) : MetricsCache α :=
  { data := none
    expiration := 0
    ttl := ttl
    maxSize := maxSize
    currentSize := 0
    cleanupInterval := cleanupInterval
    lastCleanup := now }

/-- Cache read (`Get` in cache.go): a miss (`none`) when the slot is empty
or `time.Now().After(expiration)` holds, i.e. when `expiration < now`
strictly; otherwise a hit returning the slot. -/
def MetricsCache.Get {α : Type} (c : MetricsCache α) (now : Int) : Option α :=
  if c.data.isNone || decide (c.expiration < now) then none else c.data

/-- Cache write (`Set` in cache.go): unconditionally replaces the slot and
sets `expiration = now + ttl`. -/
def MetricsCache.Set {α : Type} (c : MetricsCache α) (now : Int) (v : α) : MetricsCache α :=
  { c with data := some v, expiration := now + c.ttl }

/-- Expiry predicate (`IsExpired` in cache.go): the exact miss condition
of `Get`. -/
def MetricsCache.IsExpired {α : Type} (c : MetricsCache α) (now : Int) : Bool :=
  c.data.isNone || decide (c.expiration < now)

/-- Explicit invalidation (`Clear` in cache.go). -/
def MetricsCache.Clear {α : Type} (c : MetricsCache α) : MetricsCache α :=
  { c with data := none, expiration := 0 }

/-- Best-effort cleanup (`Cleanup` in cache.go): gated on
`time.Since(lastCleanup) < cleanupInterval`; when the gate passes, an
expired slot is discarded (expiration and size reset to zero values) and
`lastCleanup` is advanced regardless. Returns the updated cache and the
`performed` flag. -/
def MetricsCache.Cleanup {α : Type} (c : MetricsCache α) (now : Int) : MetricsCache α × Bool :=
  if now - c.lastCleanup < c.cleanupInterval then
    (c, false)
  else
    let c1 :=
      if c.data.isSome && decide (c.expiration < now) then
        { c with data := (none : Option α), expiration := 0, currentSize := 0 }
      else c
    ({ c1 with lastCleanup := now }, true)

/-- Read-only gate check (`ShouldCleanup` in cache.go). -/
def MetricsCache.ShouldCleanup {α : Type} (c : MetricsCache α) (now : Int) : Bool :=
  decide (c.cleanupInterval ≤ now - c.lastCleanup)

/-! ## Collector (internal/collector/storagebox.go) -/

/-- Identity of a measurement descriptor: one constructor per
`prometheus.Desc` / `prometheus.Counter` field of `StorageBoxCollector`
(the metric names are fixed in `NewStorageBoxCollector`). -/
inductive MetricName where
  | diskQuota
  | diskUsage
  | diskUsageData
  | diskUsageSnapshots
  | info
  | status
  | accessSSH
  | accessSamba
  | accessWebDAV
  | accessZFS
  | reachableExternal
  | snapshotPlan
  | protectionDelete
  | createdTimestamp
  | scrapeDuration
  | scrapeErrors
  | cacheHits
  | cacheMisses
  | authErrors
  | rateLimitErrors
  | serverErrors
  | clientErrors
  | networkErrors
deriving DecidableEq, Repr

/-- One measurement sent on the collect channel: descriptor identity,
label key/value pairs, and the numeric value. All values the collector
emits are integral before the `float64` conversion at the emission
boundary, so the value is carried as `Int`. -/
structure Metric where
  name : MetricName
  labels : List (String × String)
  value : Int
deriving DecidableEq, Repr

/-- The collector's monotonic self-observability counters
(the `prometheus.Counter` fields of `StorageBoxCollector`). -/
structure Counters where
  scrapeErrors : Nat
  cacheHits : Nat
  cacheMisses : Nat
  authErrors : Nat
  rateLimitErrors : Nat
  serverErrors : Nat
  clientErrors : Nat
  networkErrors : Nat
deriving DecidableEq, Repr

/-- All counters start at zero when the collector is constructed. -/
def Counters.init : Counters :=
  { scrapeErrors := 0
    cacheHits := 0
    cacheMisses := 0
    authErrors := 0
    rateLimitErrors := 0
    serverErrors := 0
    clientErrors := 0
    networkErrors := 0 }

/-- Mutable state of a `StorageBoxCollector`: the cache-enabled flag
(fixed at construction), the cache instance and the counters. The
upstream client handle carries no state relevant to the claims. -/
structure CollectorState where
  cacheEnabled : Bool
  cache : MetricsCache (List StorageBox)
  counters : Counters
deriving DecidableEq, Repr

/-- Constructor (`NewStorageBoxCollector` in storagebox.go):
`cacheEnabled := cacheTTL > 0`, a fresh cache, zeroed counters. -/
def NewStorageBoxCollector (cacheTTL cacheMaxSize cacheCleanupInterval : Int) (now : Int) :
    CollectorState :=
  { cacheEnabled := decide (0 < cacheTTL)
    cache := NewMetricsCache (List StorageBox) cacheTTL cacheMaxSize cacheCleanupInterval now
    counters := Counters.init }

/-- The descriptors sent by `Describe` in storagebox.go, in channel-send
order. Exactly as in the source, the `accessZFS` and `reachableExternal`
descriptors are NOT sent. -/
def Describe : List MetricName :=
  [ .diskQuota
  , .diskUsage
  , .diskUsageData
  , .diskUsageSnapshots
  , .info
  , .status
  , .accessSSH
  , .accessSamba
  , .accessWebDAV
  , .snapshotPlan
  , .protectionDelete
  , .createdTimestamp
  , .scrapeDuration
  , .scrapeErrors
  , .cacheHits
  , .cacheMisses
  , .authErrors
  , .rateLimitErrors
  , .serverErrors
  , .clientErrors
  , .networkErrors ]

/-- Helper `formatInt64` in storagebox.go (`strconv.FormatInt(i, 10)`). -/
def formatInt64 (i : Int) : String :=
  toString i

/-- Helper `boolToFloat64` in storagebox.go; the value domain is `Int`
here (the emitted values are the integers 0 and 1). -/
def boolToFloat64 (b : Bool) : Int :=
  if b then 1 else 0

/-- Per-resource projection (`collectStorageBox` in storagebox.go): the
fourteen measurements emitted for one storage box, in channel-send
order. -/
def collectStorageBox (box : StorageBox) : List Metric :=
  let id := formatInt64 box.id
  let name := box.name
  let server := box.server
  let location := box.location.name
  [ { name := .diskQuota
      labels := [("id", id), ("name", name), ("server", server), ("location", location)]
      value := box.storageBoxType.size }
  , { name := .diskUsage
      labels := [("id", id), ("name", name), ("server", server), ("location", location)]
      value := box.stats.size }
  , { name := .diskUsageData
      labels := [("id", id), ("name", name), ("server", server), ("location", location)]
      value := box.stats.sizeData }
  , { name := .diskUsageSnapshots
      labels := [("id", id), ("name", name), ("server", server), ("location", location)]
      value := box.stats.sizeSnapshots }
  , { name := .info
      labels := [("id", id), ("name", name), ("username", box.username), ("server", server),
                 ("location", location), ("storage_type", box.storageBoxType.name),
                 ("system", box.system)]
      value := 1 }
  , { name := .status
      labels := [("id", id), ("name", name), ("status", box.status)]
      value := if box.status = "active" then 1 else 0 }
  , { name := .accessSSH
      labels := [("id", id), ("name", name)]
      value := boolToFloat64 box.accessSettings.ssh }
  , { name := .accessSamba
      labels := [("id", id), ("name", name)]
      value := boolToFloat64 box.accessSettings.samba }
  , { name := .accessWebDAV
      labels := [("id", id), ("name", name)]
      value := boolToFloat64 box.accessSettings.webdav }
  , { name := .accessZFS
      labels := [("id", id), ("name", name)]
      value := boolToFloat64 box.accessSettings.zfs }
  , { name := .reachableExternal
      labels := [("id", id), ("name", name)]
      value := boolToFloat64 box.accessSettings.reachableExternally }
  , { name := .snapshotPlan
      labels := [("id", id), ("name", name)]
      value := if h : box.snapshotPlan.isSome then
                 if (box.snapshotPlan.get h).enabled then 1 else 0
               else 0 }
  , { name := .protectionDelete
      labels := [("id", id), ("name", name)]
      value := boolToFloat64 box.protection.delete }
  , { name := .createdTimestamp
      labels := [("id", id), ("name", name)]
      value := box.created } ]

/-- The per-kind error counter selected by the `if`/`else if` chain inside
`handleError` in storagebox.go. `none` means no per-kind counter is
incremented (a typed API error whose status matches none of the four
branches). -/
inductive ErrKind where
  | auth
  | rateLimit
  | server
  | client
  | network
deriving DecidableEq, Repr

/-- Classification branch of `handleError` in storagebox.go: a typed API
error is dispatched on `IsAuthError`, then `StatusCode == 429`, then
`IsServerError`, then `IsClientError`; any non-API error increments the
network counter. -/
def classifyError (err : HErr) : Option ErrKind :=
  if IsAPIError err then
    match GetAPIError err with
    | some apiErr =>
        if IsAuthError err then some .auth
        else if apiErr.statusCode = 429 then some .rateLimit
        else if IsServerError err then some .server
        else if IsClientError err then some .client
        else none
    | none => none
  else
    some .network

/-- Bump the counter named by an `ErrKind`. -/
def Counters.bump (cs : Counters) : Option ErrKind → Counters
  | some .auth => { cs with authErrors := cs.authErrors + 1 }
  | some .rateLimit => { cs with rateLimitErrors := cs.rateLimitErrors + 1 }
  | some .server => { cs with serverErrors := cs.serverErrors + 1 }
  | some .client => { cs with clientErrors := cs.clientErrors + 1 }
  | some .network => { cs with networkErrors := cs.networkErrors + 1 }
  | none => cs

/-- Error bookkeeping (`handleError` in storagebox.go): increment the
per-kind counter selected by the classification branch, then — as the
final line of `handleError` says, "Always increment total errors
counter" — increment `scrapeErrors`. Logging is side-effect free for the
model. -/
def handleError (cs : Counters) (err : HErr) : Counters :=
  let cs1 := cs.bump (classifyError err)
  { cs1 with scrapeErrors := cs1.scrapeErrors + 1 }

/-- The engine self-observability counter samples, in the channel-send
order used by both the failure path and the success path of `Collect`
(`scrapeErrors.Collect(ch)` down to `networkErrors.Collect(ch)`); each
Prometheus counter emits exactly one sample holding its current value. -/
def emitEngineCounters (cs : Counters) : List Metric :=
  [ { name := .scrapeErrors, labels := [], value := (cs.scrapeErrors : Int) }
  , { name := .cacheHits, labels := [], value := (cs.cacheHits : Int) }
  , { name := .cacheMisses, labels := [], value := (cs.cacheMisses : Int) }
  , { name := .authErrors, labels := [], value := (cs.authErrors : Int) }
  , { name := .rateLimitErrors, labels := [], value := (cs.rateLimitErrors : Int) }
  , { name := .serverErrors, labels := [], value := (cs.serverErrors : Int) }
  , { name := .clientErrors, labels := [], value := (cs.clientErrors : Int) }
  , { name := .networkErrors, labels := [], value := (cs.networkErrors : Int) } ]

/-- Result of one `Collect` invocation: the successor collector state, the
measurements sent on the channel in order, how many upstream calls were
made, and whether `cache.Set` was invoked. -/
structure CollectResult where
  state : CollectorState
  emitted : List Metric
  fetchCount : Nat
  cacheSetCalled : Bool
deriving DecidableEq, Repr

/-- Shared tail of the failure path of `Collect` in storagebox.go: after
`handleError` (which already incremented `scrapeErrors`), `Collect`
increments `scrapeErrors` once more, then emits exactly the eight engine
counters and returns. -/
def collectFailure (s : CollectorState) (err : HErr) (fetches : Nat) : CollectResult :=
  let cs1 := handleError s.counters err
  let cs2 := { cs1 with scrapeErrors := cs1.scrapeErrors + 1 }
  { state := { s with counters := cs2 }
    emitted := emitEngineCounters cs2
    fetchCount := fetches
    cacheSetCalled := false }

/-- Shared success tail of `Collect` in storagebox.go: per-box
measurements for every box in order, then the scrape-duration gauge, then
the eight engine counters. -/
def collectSuccessEmit (boxes : List StorageBox) (duration : Int) (cs : Counters) : List Metric :=
  (boxes.flatMap collectStorageBox)
    ++ [{ name := .scrapeDuration, labels := [], value := duration }]
    ++ emitEngineCounters cs

/-- One invocation of `Collect` in storagebox.go. `now` models the clock
at the cache `Get`/`Set` calls; `duration` models the value of
`time.Since(start).Seconds()` at the duration-gauge emission; `upstream`
models the outcome of the single HTTP round trip this invocation would
perform if it calls `ListStorageBoxes`. -/
def Collect (s : CollectorState) (upstream : UpstreamOutcome) (now duration : Int) :
    CollectResult :=
  if s.cacheEnabled then
    match s.cache.Get now with
    | some cachedData =>
        let cs := { s.counters with cacheHits := s.counters.cacheHits + 1 }
        { state := { s with counters := cs }
          emitted := collectSuccessEmit cachedData duration cs
          fetchCount := 0
          cacheSetCalled := false }
    | none =>
        let cs := { s.counters with cacheMisses := s.counters.cacheMisses + 1 }
        match ListStorageBoxes upstream with
        | .error err => collectFailure { s with counters := cs } err 1
        | .ok boxes =>
            let cache1 := s.cache.Set now boxes
            { state := { s with cache := cache1, counters := cs }
              emitted := collectSuccessEmit boxes duration cs
              fetchCount := 1
              cacheSetCalled := true }
  else
    match ListStorageBoxes upstream with
    | .error err => collectFailure s err 1
    | .ok boxes =>
        { state := s
          emitted := collectSuccessEmit boxes duration s.counters
          fetchCount := 1
          cacheSetCalled := false }

/-! ## Concrete fixtures used by witness theorems -/

/-- An active storage box with a configured, enabled snapshot plan. -/
def exampleBox : StorageBox :=
  { id := 42
    name := "bx"
    username := "u1"
    status := "active"
    server := "s1"
    system := "sys"
    storageBoxType := { name := "bx11", size := 1024 }
    location := { name := "fsn1", description := "d", country := "DE", city := "F" }
    stats := { size := 500, sizeData := 400, sizeSnapshots := 100 }
    accessSettings := { ssh := true, samba := true, webdav := false, zfs := false,
                        reachableExternally := true }
    snapshotPlan := some { enabled := true }
    protection := { delete := false }
    labels := []
    created := 1700000000 }

/-- An inactive storage box whose snapshot-plan field is absent. -/
def exampleBoxNoPlan : StorageBox :=
  { exampleBox with snapshotPlan := none, status := "inactive" }

/-- An upstream round trip answered with HTTP 401. -/
def response401 : UpstreamOutcome :=
  .response { statusCode := 401, requestID := "req-1", bodyReadOk := true,
              errorMessage := "unauthorized", decodedBoxes := none }

/-- A successful upstream round trip carrying zero storage boxes. -/
def responseOkEmpty : UpstreamOutcome :=
  .response { statusCode := 200, requestID := "req-2", bodyReadOk := true,
              errorMessage := "", decodedBoxes := some [] }

/-- A collector constructed with TTL = 0: caching disabled. -/
def disabledCollector : CollectorState :=
  NewStorageBoxCollector 0 0 10 0

/-- A collector constructed with TTL = 60: caching enabled. -/
def enabledCollector : CollectorState :=
  NewStorageBoxCollector 60 0 10 0

/-- The enabled collector after its cache was filled at time 0. -/
def enabledWarmCollector : CollectorState :=
  { enabledCollector with cache := enabledCollector.cache.Set 0 [exampleBox] }

/-- A cache instance holding a value that expires at time 3. -/
def c8cache : MetricsCache (List StorageBox) :=
  { data := some [], expiration := 3, ttl := 5, maxSize := 0, currentSize := 7,
    cleanupInterval := 10, lastCleanup := 0 }

/-! ## Spec-side definition for the error-classification refinement -/

/-- The classification prescribed by the spec's taxonomy (spec §3
`ErrorClassification`, §7), amended with the `none` outcome the code
forces: status 401/403 is Auth, 429 is RateLimit, 5xx is Server, any
other 4xx is Client, absence of a status code is Network — and a status
code outside the 4xx/5xx families selects no per-kind class at all. -/
def specClassification : HErr → Option ErrKind
  | .api a =>
      if a.statusCode = 401 ∨ a.statusCode = 403 then some .auth
      else if a.statusCode = 429 then some .rateLimit
      else if 500 ≤ a.statusCode ∧ a.statusCode < 600 then some .server
      else if 400 ≤ a.statusCode ∧ a.statusCode < 500 then some .client
      else none
  | .other _ => some .network

/-! ## Claim C1 — error classification taxonomy -/

/-- C1, counterexample: an upstream response with status 304 makes the
fetch fail with a typed API error carrying status 304, and `handleError`
classifies that error into NONE of the five kinds — refuting the claim
that every failed fetch is classified into exactly one of them. -/
theorem C1_counterexample_status_304 :
    ListStorageBoxes (UpstreamOutcome.response
        { statusCode := 304, requestID := "req-3", bodyReadOk := true,
          errorMessage := "not modified", decodedBoxes := none })
      = Except.error (HErr.api { statusCode := 304, message := "not modified",
                                 requestID := "req-3" }) ∧
    classifyError (HErr.api { statusCode := 304, message := "not modified",
                              requestID := "req-3" }) = none := by
  constructor
  · rfl
  · rfl

/-- C1 (amended): `handleError`'s classification is determined solely by
the status code carried by the error and agrees with the spec taxonomy
amended for out-of-family statuses: 401/403 is Auth, 429 is RateLimit,
5xx is Server, other 4xx is Client, a missing status code always gives
Network, a status code present never gives Network — but a status code
outside 4xx/5xx yields no class at all rather than "exactly one". -/
theorem C1_classification_amended :
    (∀ err, classifyError err = specClassification err) ∧
    (∀ a : APIError, classifyError (.api a) ≠ some ErrKind.network) ∧
    (∀ msg, classifyError (.other msg) = some ErrKind.network) := by
  refine ⟨?_, ?_, ?_⟩
  · intro err
    cases err with
    | api a =>
        simp only [classifyError, specClassification, IsAPIError, GetAPIError, IsAuthError,
          IsServerError, IsClientError, Option.isSome_some, if_true, decide_eq_true_eq]
    | other msg => rfl
  · intro a
    simp only [classifyError, specClassification, IsAPIError, GetAPIError, IsAuthError,
      IsServerError, IsClientError, Option.isSome_some, if_true, decide_eq_true_eq]
    split_ifs <;> simp
  · intro msg
    rfl

/-- Closed instance of `C1_classification_amended` at concrete errors. -/
theorem C1_classification_amended_witness :
    classifyError (HErr.api { statusCode := 401, message := "m", requestID := "r" })
      = specClassification (HErr.api { statusCode := 401, message := "m", requestID := "r" }) ∧
    classifyError (HErr.api { statusCode := 404, message := "m", requestID := "r" })
      ≠ some ErrKind.network ∧
    classifyError (HErr.other "timeout") = some ErrKind.network := by
  exact ⟨C1_classification_amended.1 _, C1_classification_amended.2.1 _,
    C1_classification_amended.2.2 _⟩

/-! ## Claim C3 — cache TTL window -/

/-- C3, counterexample: with ttl = 5, a value set at time 0 is still a HIT
at query time 5 = 0 + ttl, although the claim demands a miss at every
query time at or after T + ttl. -/
theorem C3_counterexample_boundary :
    (0 : Int) + 5 ≤ 5 ∧
    ((NewMetricsCache (List StorageBox) 5 0 10 0).Set 0 [exampleBox]).Get 5
      = some [exampleBox] := by
  constructor
  · decide
  · rfl

/-- C3 (amended): for a cache with ttl > 0, a value set at time T is a hit
for every query time T' with T ≤ T' ≤ T + ttl (the boundary T + ttl
included, since `Get` misses only strictly after the expiration), a miss
for every T' > T + ttl, and a never-written cache always misses. -/
theorem C3_ttl_window (c : MetricsCache (List StorageBox)) (v : List StorageBox)
    (T Tq : Int) (_h : 0 < c.ttl) :
    (T ≤ Tq → Tq ≤ T + c.ttl → (c.Set T v).Get Tq = some v) ∧
    (T + c.ttl < Tq → (c.Set T v).Get Tq = none) ∧
    (∀ ttl maxSize ci t0 : Int,
      (NewMetricsCache (List StorageBox) ttl maxSize ci t0).Get Tq = none) := by
  refine ⟨?_, ?_, ?_⟩
  · intro h1 h2
    simp only [MetricsCache.Set, MetricsCache.Get, Option.isNone_some, Bool.false_or,
      decide_eq_true_eq]
    rw [if_neg (by omega)]
  · intro h1
    simp only [MetricsCache.Set, MetricsCache.Get, Option.isNone_some, Bool.false_or,
      decide_eq_true_eq]
    rw [if_pos (by omega)]
  · intro ttl maxSize ci t0
    simp [NewMetricsCache, MetricsCache.Get]

/-- Closed instance of `C3_ttl_window`: ttl = 5, set at 0, hit at 4,
miss at 6, and the fresh cache misses. -/
theorem C3_ttl_window_witness :
    ((NewMetricsCache (List StorageBox) 5 0 10 0).Set 0 [exampleBox]).Get 4
      = some [exampleBox] ∧
    ((NewMetricsCache (List StorageBox) 5 0 10 0).Set 0 [exampleBox]).Get 6 = none ∧
    (NewMetricsCache (List StorageBox) 5 0 10 0).Get 4 = none := by
  refine ⟨?_, ?_, ?_⟩
  · exact (C3_ttl_window (NewMetricsCache (List StorageBox) 5 0 10 0) [exampleBox] 0 4
      (by decide)).1 (by decide) (by decide)
  · exact (C3_ttl_window (NewMetricsCache (List StorageBox) 5 0 10 0) [exampleBox] 0 6
      (by decide)).2.1 (by decide)
  · exact (C3_ttl_window (NewMetricsCache (List StorageBox) 5 0 10 0) [exampleBox] 0 4
      (by decide)).2.2 5 0 10 0

/-! ## Claim C8 — cleanup gate and frame -/

/-- C8: if less than `cleanupInterval` has elapsed since `lastCleanup`,
`Cleanup` returns false and leaves the cache untouched; otherwise it
returns true, advances `lastCleanup` to now, discards the slot (resetting
expiration to the zero value) exactly when a value is present and
expired, leaves an unexpired slot unchanged, and never touches the
configuration fields. -/
theorem C8_cleanup_frame (c : MetricsCache (List StorageBox)) (now : Int) :
    (now - c.lastCleanup < c.cleanupInterval → c.Cleanup now = (c, false)) ∧
    (c.cleanupInterval ≤ now - c.lastCleanup →
      (c.Cleanup now).2 = true ∧
      (c.Cleanup now).1.lastCleanup = now ∧
      (c.data.isSome = true ∧ c.expiration < now →
        (c.Cleanup now).1.data = none ∧ (c.Cleanup now).1.expiration = 0) ∧
      (¬ (c.data.isSome = true ∧ c.expiration < now) →
        (c.Cleanup now).1.data = c.data ∧ (c.Cleanup now).1.expiration = c.expiration ∧
        (c.Cleanup now).1.currentSize = c.currentSize) ∧
      (c.Cleanup now).1.ttl = c.ttl ∧
      (c.Cleanup now).1.maxSize = c.maxSize ∧
      (c.Cleanup now).1.cleanupInterval = c.cleanupInterval) := by
  constructor
  · intro hgate
    simp [MetricsCache.Cleanup, hgate]
  · intro hgate
    have hgate2 : ¬ (now - c.lastCleanup < c.cleanupInterval) := by omega
    by_cases hd : c.data.isSome = true ∧ c.expiration < now
    · simp [MetricsCache.Cleanup, hgate2, hd.1, hd.2, hd]
    · have hb : ¬ ((c.data.isSome && decide (c.expiration < now)) = true) := by
        simp only [Bool.and_eq_true, decide_eq_true_eq]
        exact hd
      simp [MetricsCache.Cleanup, hgate2, hb, hd]

/-- Closed instance of `C8_cleanup_frame`: the gate blocks at time 5;
at time 20 the expired value is discarded and `lastCleanup` advances. -/
theorem C8_cleanup_frame_witness :
    c8cache.Cleanup 5 = (c8cache, false) ∧
    (c8cache.Cleanup 20).2 = true ∧
    (c8cache.Cleanup 20).1.lastCleanup = 20 ∧
    (c8cache.Cleanup 20).1.data = none ∧
    (c8cache.Cleanup 20).1.expiration = 0 := by
  refine ⟨(C8_cleanup_frame c8cache 5).1 (by decide), ?_, ?_, ?_, ?_⟩
  · exact ((C8_cleanup_frame c8cache 20).2 (by decide)).1
  · exact ((C8_cleanup_frame c8cache 20).2 (by decide)).2.1
  · exact (((C8_cleanup_frame c8cache 20).2 (by decide)).2.2.1 ⟨by decide, by decide⟩).1
  · exact (((C8_cleanup_frame c8cache 20).2 (by decide)).2.2.1 ⟨by decide, by decide⟩).2

/-! ## Shared path lemmas for `Collect` -/

/-- With caching disabled and a failing fetch, `Collect` takes the
failure tail after one upstream call. -/
theorem collect_fail_disabled (s : CollectorState) (o : UpstreamOutcome) (e : HErr)
    (now duration : Int) (hse : s.cacheEnabled = false)
    (hfetch : ListStorageBoxes o = Except.error e) :
    Collect s o now duration = collectFailure s e 1 := by
  simp [Collect, hse, hfetch]

/-- With caching enabled, a cache miss and a failing fetch, `Collect`
takes the failure tail after bumping the miss counter. -/
theorem collect_fail_enabled (s : CollectorState) (o : UpstreamOutcome) (e : HErr)
    (now duration : Int) (hse : s.cacheEnabled = true) (hget : s.cache.Get now = none)
    (hfetch : ListStorageBoxes o = Except.error e) :
    Collect s o now duration =
      collectFailure
        { s with counters := { s.counters with cacheMisses := s.counters.cacheMisses + 1 } }
        e 1 := by
  simp [Collect, hse, hget, hfetch]

/-- With caching disabled and a successful fetch, `Collect` projects the
fetched boxes without touching cache or counters. -/
theorem collect_ok_disabled (s : CollectorState) (o : UpstreamOutcome)
    (boxes : List StorageBox) (now duration : Int) (hse : s.cacheEnabled = false)
    (hfetch : ListStorageBoxes o = Except.ok boxes) :
    Collect s o now duration =
      { state := s
        emitted := collectSuccessEmit boxes duration s.counters
        fetchCount := 1
        cacheSetCalled := false } := by
  simp [Collect, hse, hfetch]

/-- With caching enabled, a cache miss and a successful fetch, `Collect`
stores the result and projects it. -/
theorem collect_ok_enabled (s : CollectorState) (o : UpstreamOutcome)
    (boxes : List StorageBox) (now duration : Int) (hse : s.cacheEnabled = true)
    (hget : s.cache.Get now = none) (hfetch : ListStorageBoxes o = Except.ok boxes) :
    Collect s o now duration =
      { state :=
          { s with
            cache := s.cache.Set now boxes,
            counters := { s.counters with cacheMisses := s.counters.cacheMisses + 1 } }
        emitted := collectSuccessEmit boxes duration
          { s.counters with cacheMisses := s.counters.cacheMisses + 1 }
        fetchCount := 1
        cacheSetCalled := true } := by
  simp [Collect, hse, hget, hfetch]

/-- With caching enabled and a cache hit, `Collect` projects the cached
snapshot without any upstream call. -/
theorem collect_hit (s : CollectorState) (o : UpstreamOutcome) (v : List StorageBox)
    (now duration : Int) (hse : s.cacheEnabled = true) (hget : s.cache.Get now = some v) :
    Collect s o now duration =
      { state := { s with counters := { s.counters with cacheHits := s.counters.cacheHits + 1 } }
        emitted := collectSuccessEmit v duration
          { s.counters with cacheHits := s.counters.cacheHits + 1 }
        fetchCount := 0
        cacheSetCalled := false } := by
  simp [Collect, hse, hget]

/-- `handleError` adds exactly one to the total-errors counter. -/
theorem handleError_scrapeErrors (cs : Counters) (e : HErr) :
    (handleError cs e).scrapeErrors = cs.scrapeErrors + 1 := by
  rcases hk : classifyError e with _ | k
  · simp [handleError, Counters.bump, hk]
  · cases k <;> simp [handleError, Counters.bump, hk]

/-- `handleError` never touches the cache-hit/miss counters. -/
theorem handleError_cache_counters (cs : Counters) (e : HErr) :
    (handleError cs e).cacheHits = cs.cacheHits ∧
    (handleError cs e).cacheMisses = cs.cacheMisses := by
  rcases hk : classifyError e with _ | k
  · simp [handleError, Counters.bump, hk]
  · cases k <;> simp [handleError, Counters.bump, hk]

/-- `handleError` adds one to the per-kind counter selected by the
classification and leaves the other four untouched. -/
theorem handleError_per_kind (cs : Counters) (e : HErr) :
    (handleError cs e).authErrors =
      cs.authErrors + (if classifyError e = some ErrKind.auth then 1 else 0) ∧
    (handleError cs e).rateLimitErrors =
      cs.rateLimitErrors + (if classifyError e = some ErrKind.rateLimit then 1 else 0) ∧
    (handleError cs e).serverErrors =
      cs.serverErrors + (if classifyError e = some ErrKind.server then 1 else 0) ∧
    (handleError cs e).clientErrors =
      cs.clientErrors + (if classifyError e = some ErrKind.client then 1 else 0) ∧
    (handleError cs e).networkErrors =
      cs.networkErrors + (if classifyError e = some ErrKind.network then 1 else 0) := by
  rcases hk : classifyError e with _ | k
  · simp [handleError, Counters.bump, hk]
  · cases k <;> simp [handleError, Counters.bump, hk]

/-! ## Claim C2 — counters on a failed invocation -/

/-- C2: on a failed fetch the per-kind counter selected by the
classification is incremented exactly once — but the total scrape-error
counter is incremented TWICE, once inside `handleError` and once more by
`Collect` immediately after it, refuting the claim that it grows by
exactly one. -/
theorem C2_total_errors_double_increment (s : CollectorState) (o : UpstreamOutcome) (e : HErr)
    (now duration : Int) (hfetch : ListStorageBoxes o = Except.error e)
    (hmiss : s.cacheEnabled = true → s.cache.Get now = none) :
    (Collect s o now duration).state.counters.scrapeErrors = s.counters.scrapeErrors + 2 ∧
    (Collect s o now duration).state.counters.authErrors =
      s.counters.authErrors + (if classifyError e = some ErrKind.auth then 1 else 0) ∧
    (Collect s o now duration).state.counters.rateLimitErrors =
      s.counters.rateLimitErrors + (if classifyError e = some ErrKind.rateLimit then 1 else 0) ∧
    (Collect s o now duration).state.counters.serverErrors =
      s.counters.serverErrors + (if classifyError e = some ErrKind.server then 1 else 0) ∧
    (Collect s o now duration).state.counters.clientErrors =
      s.counters.clientErrors + (if classifyError e = some ErrKind.client then 1 else 0) ∧
    (Collect s o now duration).state.counters.networkErrors =
      s.counters.networkErrors + (if classifyError e = some ErrKind.network then 1 else 0) := by
  have hper := handleError_per_kind
  have hscr := handleError_scrapeErrors
  cases hse : s.cacheEnabled with
  | false =>
      rw [collect_fail_disabled s o e now duration hse hfetch]
      simp only [collectFailure]
      refine ⟨?_, (hper _ e).1, (hper _ e).2.1, (hper _ e).2.2.1,
        (hper _ e).2.2.2.1, (hper _ e).2.2.2.2⟩
      rw [hscr s.counters e]
  | true =>
      rw [collect_fail_enabled s o e now duration hse (hmiss hse) hfetch]
      simp only [collectFailure]
      refine ⟨?_, (hper _ e).1, (hper _ e).2.1, (hper _ e).2.2.1,
        (hper _ e).2.2.2.1, (hper _ e).2.2.2.2⟩
      rw [hscr _ e]

/-- Closed instance of `C2_total_errors_double_increment`: one failed
cache-disabled invocation against an HTTP 401 upstream leaves the total
error counter at 2 and the auth counter at 1. -/
theorem C2_total_errors_double_increment_witness :
    (Collect disabledCollector response401 0 0).state.counters.scrapeErrors = 0 + 2 ∧
    (Collect disabledCollector response401 0 0).state.counters.authErrors = 0 + 1 := by
  have h := C2_total_errors_double_increment disabledCollector response401
    (HErr.api { statusCode := 401, message := "unauthorized", requestID := "req-1" }) 0 0
    (by rfl) (fun hcontra => absurd hcontra (by decide))
  exact ⟨h.1, by rw [h.2.1]; rfl⟩

/-! ## Claim C4 — Describe versus emitted descriptors -/

/-- C4: the claim fails on the code — `collectStorageBox` emits the
ZFS-access gauge and the external-reachability gauge for every box, yet
`Describe` enumerates neither of their descriptors (it lists every other
descriptor the collector can emit). -/
theorem C4_describe_omits_emitted_descriptors :
    MetricName.accessZFS ∉ Describe ∧
    MetricName.reachableExternal ∉ Describe ∧
    ∀ box : StorageBox,
      MetricName.accessZFS ∈ (collectStorageBox box).map Metric.name ∧
      MetricName.reachableExternal ∈ (collectStorageBox box).map Metric.name := by
  refine ⟨by decide, by decide, fun box => ⟨?_, ?_⟩⟩ <;> simp [collectStorageBox]

/-- Closed instance of `C4_describe_omits_emitted_descriptors` at the
example box. -/
theorem C4_describe_omits_emitted_descriptors_witness :
    MetricName.accessZFS ∈ (collectStorageBox exampleBox).map Metric.name ∧
    MetricName.accessZFS ∉ Describe := by
  exact ⟨(C4_describe_omits_emitted_descriptors.2.2 exampleBox).1,
    C4_describe_omits_emitted_descriptors.1⟩

/-! ## Claim C5 — failed scrape emits exactly the engine counters -/

/-- C5: when the upstream fetch fails, the emitted measurement set is
non-empty and consists exactly of the eight engine counter samples —
total errors, cache hits, cache misses and the five per-kind error
counters — with no per-resource measurement and no duration gauge. -/
theorem C5_failure_emits_engine_counters (s : CollectorState) (o : UpstreamOutcome) (e : HErr)
    (now duration : Int) (hfetch : ListStorageBoxes o = Except.error e)
    (hmiss : s.cacheEnabled = true → s.cache.Get now = none) :
    (Collect s o now duration).emitted.map Metric.name =
      [MetricName.scrapeErrors, MetricName.cacheHits, MetricName.cacheMisses,
       MetricName.authErrors, MetricName.rateLimitErrors, MetricName.serverErrors,
       MetricName.clientErrors, MetricName.networkErrors] ∧
    (Collect s o now duration).emitted ≠ [] ∧
    MetricName.scrapeDuration ∉ (Collect s o now duration).emitted.map Metric.name := by
  cases hse : s.cacheEnabled with
  | false =>
      rw [collect_fail_disabled s o e now duration hse hfetch]
      refine ⟨by simp [collectFailure, emitEngineCounters], ?_, ?_⟩
      · simp [collectFailure, emitEngineCounters]
      · simp [collectFailure, emitEngineCounters]
  | true =>
      rw [collect_fail_enabled s o e now duration hse (hmiss hse) hfetch]
      refine ⟨by simp [collectFailure, emitEngineCounters], ?_, ?_⟩
      · simp [collectFailure, emitEngineCounters]
      · simp [collectFailure, emitEngineCounters]

/-- Closed instance of `C5_failure_emits_engine_counters` on a 401
failure with caching disabled. -/
theorem C5_failure_emits_engine_counters_witness :
    (Collect disabledCollector response401 0 0).emitted.map Metric.name =
      [MetricName.scrapeErrors, MetricName.cacheHits, MetricName.cacheMisses,
       MetricName.authErrors, MetricName.rateLimitErrors, MetricName.serverErrors,
       MetricName.clientErrors, MetricName.networkErrors] ∧
    (Collect disabledCollector response401 0 0).emitted ≠ [] := by
  have h := C5_failure_emits_engine_counters disabledCollector response401
    (HErr.api { statusCode := 401, message := "unauthorized", requestID := "req-1" }) 0 0
    (by rfl) (fun hcontra => absurd hcontra (by decide))
  exact ⟨h.1, h.2.1⟩

/-! ## Claim C6 — cache hit/miss accounting -/

/-- C6: with caching enabled, each invocation increments exactly one of
the hit/miss counters (hit: no upstream call; miss: one upstream call);
with caching disabled, neither counter moves and exactly one upstream
call is made; the constructor enables caching exactly when TTL > 0. -/
theorem C6_hit_miss_accounting (s : CollectorState) (o : UpstreamOutcome) (now duration : Int) :
    (∀ v, s.cacheEnabled = true → s.cache.Get now = some v →
      (Collect s o now duration).state.counters.cacheHits = s.counters.cacheHits + 1 ∧
      (Collect s o now duration).state.counters.cacheMisses = s.counters.cacheMisses ∧
      (Collect s o now duration).fetchCount = 0) ∧
    (s.cacheEnabled = true → s.cache.Get now = none →
      (Collect s o now duration).state.counters.cacheMisses = s.counters.cacheMisses + 1 ∧
      (Collect s o now duration).state.counters.cacheHits = s.counters.cacheHits ∧
      (Collect s o now duration).fetchCount = 1) ∧
    (s.cacheEnabled = false →
      (Collect s o now duration).state.counters.cacheHits = s.counters.cacheHits ∧
      (Collect s o now duration).state.counters.cacheMisses = s.counters.cacheMisses ∧
      (Collect s o now duration).fetchCount = 1) ∧
    (∀ ttl maxSize ci t0 : Int,
      (NewStorageBoxCollector ttl maxSize ci t0).cacheEnabled = decide (0 < ttl)) := by
  refine ⟨?_, ?_, ?_, fun ttl maxSize ci t0 => rfl⟩
  · intro v hse hget
    rw [collect_hit s o v now duration hse hget]
    exact ⟨rfl, rfl, rfl⟩
  · intro hse hget
    cases hfe : ListStorageBoxes o with
    | error e =>
        rw [collect_fail_enabled s o e now duration hse hget hfe]
        exact ⟨(handleError_cache_counters _ e).2, (handleError_cache_counters _ e).1, rfl⟩
    | ok boxes =>
        rw [collect_ok_enabled s o boxes now duration hse hget hfe]
        exact ⟨rfl, rfl, rfl⟩
  · intro hse
    cases hfe : ListStorageBoxes o with
    | error e =>
        rw [collect_fail_disabled s o e now duration hse hfe]
        exact ⟨(handleError_cache_counters _ e).1, (handleError_cache_counters _ e).2, rfl⟩
    | ok boxes =>
        rw [collect_ok_disabled s o boxes now duration hse hfe]
        exact ⟨rfl, rfl, rfl⟩

/-- Closed instance of `C6_hit_miss_accounting`: a warm enabled cache
takes the hit path with no upstream call; a disabled collector leaves
both counters at zero and makes one upstream call. -/
theorem C6_hit_miss_accounting_witness :
    (Collect enabledWarmCollector responseOkEmpty 10 0).state.counters.cacheHits =
      enabledWarmCollector.counters.cacheHits + 1 ∧
    (Collect enabledWarmCollector responseOkEmpty 10 0).fetchCount = 0 ∧
    (Collect disabledCollector responseOkEmpty 0 0).state.counters.cacheHits =
      disabledCollector.counters.cacheHits ∧
    (Collect disabledCollector responseOkEmpty 0 0).state.counters.cacheMisses =
      disabledCollector.counters.cacheMisses ∧
    (Collect disabledCollector responseOkEmpty 0 0).fetchCount = 1 := by
  have h1 := (C6_hit_miss_accounting enabledWarmCollector responseOkEmpty 10 0).1
    [exampleBox] (by decide) (by rfl)
  have h2 := (C6_hit_miss_accounting disabledCollector responseOkEmpty 0 0).2.2.1
    (by decide)
  exact ⟨h1.1, h1.2.2, h2.1, h2.2.1, h2.2.2⟩

/-! ## Claim C7 — failed fetch leaves the cache untouched -/

/-- C7: a failed upstream fetch leaves the cache record (stored value and
expiration included) exactly as it was, and `cache.Set` is invoked only
when caching is enabled and the fetch succeeded — in which case the new
cache is exactly the old one with the fetched snapshot stored at the
invocation time. -/
theorem C7_failure_leaves_cache_unchanged (s : CollectorState) (now duration : Int) :
    (∀ o e, ListStorageBoxes o = Except.error e →
      (Collect s o now duration).state.cache = s.cache ∧
      (Collect s o now duration).cacheSetCalled = false) ∧
    (∀ o, (Collect s o now duration).cacheSetCalled = true →
      s.cacheEnabled = true ∧ ∃ boxes, ListStorageBoxes o = Except.ok boxes ∧
        (Collect s o now duration).state.cache = s.cache.Set now boxes) := by
  constructor
  · intro o e hfetch
    cases hse : s.cacheEnabled with
    | false =>
        rw [collect_fail_disabled s o e now duration hse hfetch]
        exact ⟨rfl, rfl⟩
    | true =>
        cases hget : s.cache.Get now with
        | some v =>
            rw [collect_hit s o v now duration hse hget]
            exact ⟨rfl, rfl⟩
        | none =>
            rw [collect_fail_enabled s o e now duration hse hget hfetch]
            exact ⟨rfl, rfl⟩
  · intro o hset
    cases hse : s.cacheEnabled with
    | false =>
        cases hfe : ListStorageBoxes o with
        | error e =>
            rw [collect_fail_disabled s o e now duration hse hfe] at hset
            exact absurd hset (by simp [collectFailure])
        | ok boxes =>
            rw [collect_ok_disabled s o boxes now duration hse hfe] at hset
            exact absurd hset (by simp)
    | true =>
        cases hget : s.cache.Get now with
        | some v =>
            rw [collect_hit s o v now duration hse hget] at hset
            exact absurd hset (by simp)
        | none =>
            cases hfe : ListStorageBoxes o with
            | error e =>
                rw [collect_fail_enabled s o e now duration hse hget hfe] at hset
                exact absurd hset (by simp [collectFailure])
            | ok boxes =>
                refine ⟨rfl, boxes, rfl, ?_⟩
                rw [collect_ok_enabled s o boxes now duration hse hget hfe]

/-- Closed instance of `C7_failure_leaves_cache_unchanged`: a 401 failure
leaves the disabled collector's cache intact, and a successful fetch on
the enabled cold collector stores the snapshot. -/
theorem C7_failure_leaves_cache_unchanged_witness :
    (Collect disabledCollector response401 0 0).state.cache = disabledCollector.cache ∧
    (Collect disabledCollector response401 0 0).cacheSetCalled = false ∧
    enabledCollector.cacheEnabled = true := by
  have h := (C7_failure_leaves_cache_unchanged disabledCollector 0 0).1 response401
    (HErr.api { statusCode := 401, message := "unauthorized", requestID := "req-1" }) (by rfl)
  exact ⟨h.1, h.2, by decide⟩

/-! ## Claim C9 — snapshot-plan gauge projection -/

/-- C9: the snapshot-plan gauge emitted for a resource has value 1 exactly
when the snapshot-plan field is present with its enabled flag set; an
absent (nil) snapshot plan projects to value 0 and causes no error (the
projection is total). -/
theorem C9_snapshot_plan_gauge (box : StorageBox) :
    ((collectStorageBox box).find? (fun m => decide (m.name = MetricName.snapshotPlan))).map
        Metric.value
      = some (if hp : box.snapshotPlan.isSome then
                (if (box.snapshotPlan.get hp).enabled then 1 else 0)
              else 0) ∧
    (((collectStorageBox box).find? (fun m => decide (m.name = MetricName.snapshotPlan))).map
        Metric.value = some 1
      ↔ ∃ p, box.snapshotPlan = some p ∧ p.enabled = true) ∧
    (box.snapshotPlan = none →
      ((collectStorageBox box).find? (fun m => decide (m.name = MetricName.snapshotPlan))).map
        Metric.value = some 0) := by
  rcases hsp : box.snapshotPlan with _ | p
  · simp [collectStorageBox, List.find?, hsp]
  · rcases hpe : p.enabled with _ | _
    · simp [collectStorageBox, List.find?, hsp, hpe]
    · simp [collectStorageBox, List.find?, hsp, hpe]

/-- Closed instance of `C9_snapshot_plan_gauge`: the box with an absent
snapshot plan projects to value 0. -/
theorem C9_snapshot_plan_gauge_witness :
    ((collectStorageBox exampleBoxNoPlan).find?
        (fun m => decide (m.name = MetricName.snapshotPlan))).map Metric.value = some 0 := by
  exact (C9_snapshot_plan_gauge exampleBoxNoPlan).2.2 (by rfl)

/-! ## Claim C10 — empty snapshot is a success -/

/-- C10: a successful fetch returning zero resources is treated as a
success: the scrape-duration gauge and all eight engine counters are
emitted, zero per-resource measurements are emitted, exactly one upstream
call is made, and no error counter moves. -/
theorem C10_empty_snapshot_is_success (s : CollectorState) (o : UpstreamOutcome)
    (now duration : Int) (hfetch : ListStorageBoxes o = Except.ok [])
    (hmiss : s.cacheEnabled = true → s.cache.Get now = none) :
    (Collect s o now duration).emitted.map Metric.name =
      [MetricName.scrapeDuration, MetricName.scrapeErrors, MetricName.cacheHits,
       MetricName.cacheMisses, MetricName.authErrors, MetricName.rateLimitErrors,
       MetricName.serverErrors, MetricName.clientErrors, MetricName.networkErrors] ∧
    (Collect s o now duration).state.counters.scrapeErrors = s.counters.scrapeErrors ∧
    (Collect s o now duration).state.counters.authErrors = s.counters.authErrors ∧
    (Collect s o now duration).state.counters.rateLimitErrors = s.counters.rateLimitErrors ∧
    (Collect s o now duration).state.counters.serverErrors = s.counters.serverErrors ∧
    (Collect s o now duration).state.counters.clientErrors = s.counters.clientErrors ∧
    (Collect s o now duration).state.counters.networkErrors = s.counters.networkErrors ∧
    (Collect s o now duration).fetchCount = 1 := by
  cases hse : s.cacheEnabled with
  | false =>
      rw [collect_ok_disabled s o [] now duration hse hfetch]
      refine ⟨?_, rfl, rfl, rfl, rfl, rfl, rfl, rfl⟩
      simp [collectSuccessEmit, emitEngineCounters]
  | true =>
      rw [collect_ok_enabled s o [] now duration hse (hmiss hse) hfetch]
      refine ⟨?_, rfl, rfl, rfl, rfl, rfl, rfl, rfl⟩
      simp [collectSuccessEmit, emitEngineCounters]

/-- Closed instance of `C10_empty_snapshot_is_success` with caching
disabled. -/
theorem C10_empty_snapshot_is_success_witness :
    (Collect disabledCollector responseOkEmpty 0 0).emitted.map Metric.name =
      [MetricName.scrapeDuration, MetricName.scrapeErrors, MetricName.cacheHits,
       MetricName.cacheMisses, MetricName.authErrors, MetricName.rateLimitErrors,
       MetricName.serverErrors, MetricName.clientErrors, MetricName.networkErrors] ∧
    (Collect disabledCollector responseOkEmpty 0 0).state.counters.scrapeErrors = 0 ∧
    (Collect disabledCollector responseOkEmpty 0 0).fetchCount = 1 := by
  have h := C10_empty_snapshot_is_success disabledCollector responseOkEmpty 0 0
    (by rfl) (fun hcontra => absurd hcontra (by decide))
  exact ⟨h.1, h.2.1, h.2.2.2.2.2.2.2⟩
